import Mathlib

/-!
# Verification of the caniuseif compatibility engine

Shallow embedding of `src/services/caniuseService.ts` (the current variant of
the service: feature catalog + fuse.js search wrapper, lazy per-feature data
loading with a resolved-value cache, and the overlap-scoring compatibility
engine), together with the older caniuse-lite variant's `parseSupportLevel`
where a claim refers to it.

Modelling conventions:
- JS strings are `String`; JS `number` percentages are `ℚ` (the counts are
  list lengths, so every arithmetic step is an exact small rational).
- `Object.entries` order is modelled by lists of pairs.
- A JS `Map` populated by consecutive `set` calls (later writes overwrite) is
  modelled by `find?` over the reversed insertion list: the last write wins.
- The resolved outcome of `loadFeatureData` (which returns `FeatureData` or
  `null`, deterministically for a fixed dataset) is a function
  `String → Option FeatureData` wherever only the loaded values matter; the
  stateful cache/in-flight behaviour of `loadFeatureData` itself is modelled
  separately as an explicit interleaving machine (`stepProc` / `runSchedule`).
-/

/-- The three-valued support classification `'full' | 'partial' | 'none'`
from the source. The source's string `'partial'` is rendered `partly`. -/
inductive SupportLevel
  | full
  | partly
  | none
deriving DecidableEq

/-- One flattened entry of a support matrix: `BrowserSupport` in the source. -/
structure BrowserSupport where
  browserId : String
  version : String
  support : String
  supportLevel : SupportLevel
deriving DecidableEq

/-- A catalog record of `features.json`: `{ id, title, description? }`. -/
structure CatFeature where
  id : String
  title : String
  description : Option String
deriving DecidableEq

/-- Per-feature stats: browser id → (version → raw support code),
in `Object.entries` order. -/
def Stats := List (String × List (String × String))

/-- The reconstructed `FeatureData` object of the source. -/
structure FeatureData where
  id : String
  title : String
  description : Option String
  stats : List (String × List (String × String))
deriving DecidableEq

/-- The `CompatibilityResult` of the source; the `details` wrapper object is
flattened into the structure. -/
structure CompatibilityResult where
  compatible : SupportLevel
  baseFeatureBrowsers : List BrowserSupport
  targetFeatureSupport : List BrowserSupport
  overlappingSupport : List BrowserSupport
  fullSupportPercentage : ℚ
  partialSupportPercentage : ℚ
deriving DecidableEq

/-- The inline classification of `getBrowserSupportData` (current variant):
`'y'` → full; `'a' | 'p'` → partial; `'n'` → none; anything else keeps the
initial `'none'`. -/
def classifySupport (support : String) : SupportLevel :=
  if support = "y" then SupportLevel.full
  else if support = "a" ∨ support = "p" then SupportLevel.partly
  else if support = "n" then SupportLevel.none
  else SupportLevel.none

/-- JS `string.includes(c)` for a single-character needle: the character
occurs in the string. -/
def includesChar (s : String) (c : Char) : Bool :=
  s.toList.contains c

/-- `parseSupportLevel` of the older caniuse-lite variant of the service:
`!supportString || supportString === 'n'` → none; `'y'` → full; codes
containing `'a'` or `'x'` → partial; else none. -/
def parseSupportLevel (supportString : String) : SupportLevel :=
  if supportString = "" ∨ supportString = "n" then SupportLevel.none
  else if supportString = "y" then SupportLevel.full
  else if includesChar supportString 'a' ∨ includesChar supportString 'x' then SupportLevel.partly
  else SupportLevel.none

/-- Flattening of `feature.stats` done inside `getBrowserSupportData`:
one `BrowserSupport` per (browser, version) pair, in entries order, with
`supportLevel` computed by the inline classification. -/
def flattenStats (stats : List (String × List (String × String))) : List BrowserSupport :=
  stats.flatMap (fun bv =>
    bv.2.map (fun vs => ⟨bv.1, vs.1, vs.2, classifySupport vs.2⟩))

/-- `getBrowserSupportData(featureId)`: loads the feature through the store
(the resolved outcome of `loadFeatureData`) and flattens its stats; a failed
load (`null`) or absent stats yields `[]`. -/
def getBrowserSupportData (store : String → Option FeatureData) (featureId : String) :
    List BrowserSupport :=
  match store featureId with
  | Option.none => []
  | Option.some f => flattenStats f.stats

/-- The `` `${browserId}-${version}` `` key used for the target support map. -/
def entryKey (browserId version : String) : String :=
  browserId ++ "-" ++ version

/-- `targetSupportMap.get(key)`: the map is filled by `set` in list order, so
the last entry with a given key wins; modelled by searching the reversed
list. -/
def targetLookup (targetData : List BrowserSupport) (key : String) : Option BrowserSupport :=
  targetData.reverse.find? (fun t => decide (entryKey t.browserId t.version = key))

/-- The synthetic "no data means no support" entry pushed when the key is
absent from the target map. -/
def synthNone (browserId version : String) : BrowserSupport :=
  ⟨browserId, version, "n", SupportLevel.none⟩

/-- The body of the `supportingBrowsers.forEach` loop: the overlap entry
recorded for one supporting-set entry. -/
def overlapEntry (targetData : List BrowserSupport) (e : BrowserSupport) : BrowserSupport :=
  match targetLookup targetData (entryKey e.browserId e.version) with
  | Option.some t => t
  | Option.none => synthNone e.browserId e.version

/-- `totalCount > 0 ? (count / totalCount) * 100 : 0`. -/
def pct (count total : Nat) : ℚ :=
  if 0 < total then ((count : ℚ) / (total : ℚ)) * 100 else 0

/-- The final classification step: `>= 100` → full, else `>= 70` (combined)
→ partial, else none. -/
def classifyResult (fullPct partialPct : ℚ) : SupportLevel :=
  if 100 ≤ fullPct then SupportLevel.full
  else if 70 ≤ fullPct + partialPct then SupportLevel.partly
  else SupportLevel.none

/-- `baseSupportData.filter((support) => support.supportLevel === 'full')`:
the supporting set of the current variant (full-only policy). -/
def supportingSet (baseSupportData : List BrowserSupport) : List BrowserSupport :=
  baseSupportData.filter (fun s => decide (s.supportLevel = SupportLevel.full))

/-- The `supportingBrowsers.forEach` loop: one overlap entry pushed per
supporting-set entry, in order. -/
def overlapList (targetData supporting : List BrowserSupport) : List BrowserSupport :=
  supporting.map (overlapEntry targetData)

/-- The loop counters: `fullSupportCount` / `partialSupportCount` /
`noSupportCount` are incremented exactly when the pushed overlap entry has
the corresponding level (the `default` arm and the synthetic entry cover
`none`), so each is the filter-length over `overlappingSupport`. -/
def countLevel (l : List BrowserSupport) (lvl : SupportLevel) : Nat :=
  (l.filter (fun o => decide (o.supportLevel = lvl))).length

/-- The pure core of `checkCompatibility`, from the two flattened support
lists to the result. -/
def mkResult (baseSupportData targetSupportData : List BrowserSupport) :
    CompatibilityResult :=
  let supportingBrowsers := supportingSet baseSupportData
  let overlappingSupport := overlapList targetSupportData supportingBrowsers
  let fullSupportCount := countLevel overlappingSupport SupportLevel.full
  let partialSupportCount := countLevel overlappingSupport SupportLevel.partly
  let totalCount := supportingBrowsers.length
  { compatible := classifyResult (pct fullSupportCount totalCount) (pct partialSupportCount totalCount)
    baseFeatureBrowsers := supportingBrowsers
    targetFeatureSupport := targetSupportData
    overlappingSupport := overlappingSupport
    fullSupportPercentage := pct fullSupportCount totalCount
    partialSupportPercentage := pct partialSupportCount totalCount }

/-- `checkCompatibility(baseFeatureId, targetFeatureId)` of the current
variant. -/
def checkCompatibility (store : String → Option FeatureData)
    (baseFeatureId targetFeatureId : String) : CompatibilityResult :=
  mkResult (getBrowserSupportData store baseFeatureId)
    (getBrowserSupportData store targetFeatureId)

/-- JS truthiness chaining `a || b` on string-or-null values: an empty string
is falsy and falls through. -/
def firstTruthy (a b : Option String) : Option String :=
  match a with
  | Option.some s => if s = "" then b else Option.some s
  | Option.none => b

/-- Lookup in the `featureDataCache` `Map` (last write wins). -/
def cacheLookup (cache : List (String × FeatureData)) (featureId : String) :
    Option FeatureData :=
  (cache.reverse.find? (fun kv => decide (kv.1 = featureId))).map (fun kv => kv.2)

/-- `getFeatureTitle(featureId)` of the current variant:
`featuresData.find(f => f.id === featureId)?.title ||
 featureDataCache.get(featureId)?.title || null`. -/
def getFeatureTitle (featuresData : List CatFeature)
    (cache : List (String × FeatureData)) (featureId : String) : Option String :=
  firstTruthy ((featuresData.find? (fun f => decide (f.id = featureId))).map (fun f => f.title))
    (firstTruthy ((cacheLookup cache featureId).map (fun f => f.title)) Option.none)

/-- Modelled from the spec: the fuse.js search index (the fuzzy matcher is an
external library, absent from src/).  Per the spec it matches against title,
description and id, ranks by match quality best first (fuse scores ascending,
`includeScore`), and caps the result at the given limit.  The scoring
function is abstract: `Option.none` means "no match". -/
structure FuseResult where
  item : CatFeature
  score : ℚ
deriving DecidableEq

/-- Modelled from the spec: `searchIndex.search(query, { limit })` — score
every matching catalog entry, sort ascending by score (best first), truncate
to `limit`. -/
def fuseSearch (scorer : CatFeature → String → Option ℚ) (idx : List CatFeature)
    (query : String) (limit : Nat) : List FuseResult :=
  ((idx.filterMap (fun f => (scorer f query).map (fun s => FuseResult.mk f s))).mergeSort
    (fun a b => decide (a.score ≤ b.score))).take limit

/-- JS `string.trim()`: strip leading and trailing whitespace. -/
def trimString (s : String) : String :=
  String.mk (((s.toList.dropWhile Char.isWhitespace).reverse.dropWhile
    Char.isWhitespace).reverse)

/-- `searchFeatures(query)` of the current variant: blank (after `trim`)
queries return the whole catalog; otherwise the fuse results with
`limit: 50`, mapped to their items. -/
def searchFeatures (scorer : CatFeature → String → Option ℚ)
    (featuresData : List CatFeature) (query : String) : List CatFeature :=
  if trimString query = "" then featuresData
  else (fuseSearch scorer featuresData query 50).map (fun r => r.item)

/-- The sanitization of `loadFeatureData` / the build script:
`featureId.replace(/[^a-zA-Z0-9_-]/g, '_')`. -/
def sanitizeChar (c : Char) : Char :=
  if c.isAlphanum ∨ c = '-' ∨ c = '_' then c else '_'

def sanitizeId (featureId : String) : String :=
  String.mk (featureId.toList.map sanitizeChar)

/-!
## Interleaving model of `loadFeatureData`

`loadFeatureData` runs synchronously up to `await import(...)` (cache check,
then the import is initiated) and resumes after the import resolves (metadata
lookup, cache write, return).  Each call is a process with two atomic steps;
a schedule chooses which process steps next.  `loadCount` counts initiated
underlying imports.
-/

/-- Program counter of one `loadFeatureData(fid)` call. -/
inductive ProcState
  | start (fid : String)
  | awaitingImport (fid : String)
  | finished (fid : String) (result : Option FeatureData)
deriving DecidableEq

/-- Shared state: the `featureDataCache` (insertion list) and the number of
underlying imports started. -/
structure StoreState where
  cache : List (String × FeatureData)
  loadCount : Nat
deriving DecidableEq

/-- One atomic step of a `loadFeatureData` call.
`importSrc` is the per-feature artifact source, keyed by sanitized id
(`Option.none` models a failed `import`, caught and turned into `null`);
`featuresData` is the catalog used for the metadata lookup. -/
def stepProc (importSrc : String → Option (List (String × List (String × String))))
    (featuresData : List CatFeature) (st : StoreState) (p : ProcState) :
    StoreState × ProcState :=
  match p with
  | ProcState.start fid =>
    match cacheLookup st.cache fid with
    | Option.some d => (st, ProcState.finished fid (Option.some d))
    | Option.none =>
      ({ st with loadCount := st.loadCount + 1 }, ProcState.awaitingImport fid)
  | ProcState.awaitingImport fid =>
    match importSrc (sanitizeId fid) with
    | Option.none => (st, ProcState.finished fid Option.none)
    | Option.some stats =>
      match featuresData.find? (fun f => decide (f.id = fid)) with
      | Option.none => (st, ProcState.finished fid Option.none)
      | Option.some meta =>
        let fd : FeatureData := ⟨fid, meta.title, meta.description, stats⟩
        ({ st with cache := st.cache ++ [(fid, fd)] }, ProcState.finished fid (Option.some fd))
  | ProcState.finished _ _ => (st, p)

/-- Run a schedule (a list of process indices); out-of-range indices are
skipped. -/
def runSchedule (importSrc : String → Option (List (String × List (String × String))))
    (featuresData : List CatFeature) :
    List Nat → StoreState × List ProcState → StoreState × List ProcState
  | [], acc => acc
  | i :: rest, (st, procs) =>
    match procs[i]? with
    | Option.none => runSchedule importSrc featuresData rest (st, procs)
    | Option.some p =>
      let next := stepProc importSrc featuresData st p
      runSchedule importSrc featuresData rest (next.1, procs.set i next.2)

/-- `find?` over the reversed target list restricted to a pair match instead
of a key-string match (used to state what the overlap "should" contain). -/
def pairLookup (targetData : List BrowserSupport) (browserId version : String) :
    Option BrowserSupport :=
  targetData.reverse.find?
    (fun t => decide (t.browserId = browserId ∧ t.version = version))

/-!  Concrete inputs used by witnesses and counterexamples. -/

/-- A feature with a single, non-full entry. -/
def fdNoFull : FeatureData := ⟨"feat-a", "A", Option.none, [("chrome", [("1", "n")])]⟩

/-- Store for the `checkCompatibility(A,A)` counterexample. -/
def storeNoFull : String → Option FeatureData :=
  fun fid => if fid = "feat-a" then Option.some fdNoFull else Option.none

/-- A feature with full, partial and none entries. -/
def fdMixed : FeatureData :=
  ⟨"feat-m", "M", Option.none, [("chrome", [("1", "y"), ("2", "a"), ("3", "n")])]⟩

/-- A feature fully supported on one browser version. -/
def fdYes : FeatureData := ⟨"feat-y", "Y", Option.none, [("chrome", [("1", "y")])]⟩

/-- Store serving `fdMixed` and `fdYes`. -/
def storeMixed : String → Option FeatureData :=
  fun fid =>
    if fid = "feat-m" then Option.some fdMixed
    else if fid = "feat-y" then Option.some fdYes
    else Option.none

/-- Base feature for the key-collision counterexample: browser `"a"`,
version `"b-1"`. -/
def fdCollBase : FeatureData := ⟨"feat-a", "A", Option.none, [("a", [("b-1", "y")])]⟩

/-- Target feature for the key-collision counterexample: browser `"a-b"`,
version `"1"` — same `browserId-version` key string `"a-b-1"`. -/
def fdCollTarget : FeatureData := ⟨"feat-b", "B", Option.none, [("a-b", [("1", "y")])]⟩

def storeColl : String → Option FeatureData :=
  fun fid =>
    if fid = "feat-a" then Option.some fdCollBase
    else if fid = "feat-b" then Option.some fdCollTarget
    else Option.none

/-- One-feature catalog for the `loadFeatureData` interleaving runs. -/
def catalogFlexbox : List CatFeature := [⟨"flexbox", "Flexbox", Option.none⟩]

/-- Import source for the interleaving runs. -/
def importSrcFlexbox : String → Option (List (String × List (String × String))) :=
  fun sid => if sid = "flexbox" then Option.some [("chrome", [("1", "y")])] else Option.none

/-- Two concurrent `loadFeatureData("flexbox")` calls, both still at their
cache check. -/
def procsFlexbox : List ProcState := [ProcState.start "flexbox", ProcState.start "flexbox"]

/-- Catalog used by the `getFeatureTitle` witness. -/
def catalogGrid : List CatFeature := [⟨"css-grid", "Grid", Option.none⟩]

/-- Catalog used by the search witness. -/
def catalogSearch : List CatFeature := [⟨"flexbox", "Flexbox", Option.none⟩]

/-- Scorer that matches nothing. -/
def scorerNone : CatFeature → String → Option ℚ := fun _ _ => Option.none

/-!
## Helper lemmas
-/

theorem mkResult_base (b t : List BrowserSupport) :
    (mkResult b t).baseFeatureBrowsers = supportingSet b := rfl

theorem mkResult_target (b t : List BrowserSupport) :
    (mkResult b t).targetFeatureSupport = t := rfl

theorem mkResult_overlap (b t : List BrowserSupport) :
    (mkResult b t).overlappingSupport = overlapList t (supportingSet b) := rfl

theorem mkResult_fullPct (b t : List BrowserSupport) :
    (mkResult b t).fullSupportPercentage
      = pct (countLevel (overlapList t (supportingSet b)) SupportLevel.full)
          (supportingSet b).length := rfl

theorem mkResult_partialPct (b t : List BrowserSupport) :
    (mkResult b t).partialSupportPercentage
      = pct (countLevel (overlapList t (supportingSet b)) SupportLevel.partly)
          (supportingSet b).length := rfl

theorem mkResult_compatible (b t : List BrowserSupport) :
    (mkResult b t).compatible
      = classifyResult (mkResult b t).fullSupportPercentage
          (mkResult b t).partialSupportPercentage := rfl

theorem classifyResult_full_iff (p q : ℚ) :
    classifyResult p q = SupportLevel.full ↔ 100 ≤ p := by
  unfold classifyResult
  split_ifs with h1 h2 <;> simp_all

theorem classifyResult_partly_iff (p q : ℚ) :
    classifyResult p q = SupportLevel.partly ↔ (p < 100 ∧ 70 ≤ p + q) := by
  unfold classifyResult
  split_ifs with h1 h2
  · simp only [reduceCtorEq, false_iff]
    intro h
    exact absurd h1 (not_le.mpr h.1)
  · simp only [true_iff]
    exact ⟨not_le.mp h1, h2⟩
  · simp only [reduceCtorEq, false_iff]
    intro h
    exact absurd h.2 h2

theorem classifyResult_none_iff (p q : ℚ) :
    classifyResult p q = SupportLevel.none ↔ (p < 100 ∧ p + q < 70) := by
  unfold classifyResult
  split_ifs with h1 h2
  · simp_all
  · simp only [reduceCtorEq, false_iff]
    intro h
    exact absurd h2 (not_le.mpr h.2)
  · simp only [true_iff]
    exact ⟨not_le.mp h1, not_le.mp h2⟩

/-!
## Claim theorems
-/

/-- C2: for every pair of inputs, `checkCompatibility` classifies
`compatible = full` iff `fullSupportPercentage >= 100`; otherwise `partial`
iff `fullSupportPercentage + partialSupportPercentage >= 70`; otherwise
`none` — the 100 and 70 boundaries are exact. -/
theorem checkCompatibility_classification (store : String → Option FeatureData)
    (baseId targetId : String) :
    ((checkCompatibility store baseId targetId).compatible = SupportLevel.full
      ↔ 100 ≤ (checkCompatibility store baseId targetId).fullSupportPercentage)
    ∧ ((checkCompatibility store baseId targetId).compatible = SupportLevel.partly
      ↔ ((checkCompatibility store baseId targetId).fullSupportPercentage < 100
        ∧ 70 ≤ (checkCompatibility store baseId targetId).fullSupportPercentage
            + (checkCompatibility store baseId targetId).partialSupportPercentage))
    ∧ ((checkCompatibility store baseId targetId).compatible = SupportLevel.none
      ↔ ((checkCompatibility store baseId targetId).fullSupportPercentage < 100
        ∧ (checkCompatibility store baseId targetId).fullSupportPercentage
            + (checkCompatibility store baseId targetId).partialSupportPercentage < 70)) := by
  have h : (checkCompatibility store baseId targetId).compatible
      = classifyResult (checkCompatibility store baseId targetId).fullSupportPercentage
          (checkCompatibility store baseId targetId).partialSupportPercentage := rfl
  rw [h]
  exact ⟨classifyResult_full_iff _ _, classifyResult_partly_iff _ _, classifyResult_none_iff _ _⟩

/-- C3 counterexample: the claim maps the codes `'x'` and `'p'` (and codes
containing those markers) to `partial`, but the current classifier sends
`'x'` to `none` (it only recognises exactly `'a'` and `'p'`), and the
caniuse-lite variant's `parseSupportLevel` sends `'p'` to `none` (it only
looks for `'a'`/`'x'` markers). -/
theorem classify_x_parse_p_not_partly :
    classifySupport "x" = SupportLevel.none
    ∧ parseSupportLevel "p" = SupportLevel.none
    ∧ SupportLevel.none ≠ SupportLevel.partly := by decide

/-- C3 amended: the current classifier maps `'y'` to full, exactly `'a'` or
`'p'` to partial, and everything else (absence is not an input; `'n'`, `'x'`
and any other code, including codes merely containing marker characters) to
none; the caniuse-lite variant's `parseSupportLevel` instead maps codes
containing `'a'` or `'x'` to partial. -/
theorem classifySupport_characterization (s : String) :
    (classifySupport s = SupportLevel.full ↔ s = "y")
    ∧ (classifySupport s = SupportLevel.partly ↔ (s = "a" ∨ s = "p"))
    ∧ (classifySupport s = SupportLevel.none ↔ (s ≠ "y" ∧ s ≠ "a" ∧ s ≠ "p"))
    ∧ (parseSupportLevel s = SupportLevel.partly
        ↔ (includesChar s 'a' ∨ includesChar s 'x')) := by
  refine ⟨?_, ?_, ?_, ?_⟩
  · unfold classifySupport
    split_ifs with h1 h2 h3 <;> simp [h1]
  · unfold classifySupport
    split_ifs with h1 h2 h3
    · subst h1
      decide
    · simp only [true_iff]
      exact h2
    · simp only [reduceCtorEq, false_iff]
      exact h2
    · simp only [reduceCtorEq, false_iff]
      exact h2
  · unfold classifySupport
    split_ifs with h1 h2 h3
    · subst h1
      decide
    · simp only [reduceCtorEq, false_iff]
      intro h
      rcases h2 with rfl | rfl
      · exact absurd rfl h.2.1
      · exact absurd rfl h.2.2
    · simp only [true_iff]
      exact ⟨h1, fun h => h2 (Or.inl h), fun h => h2 (Or.inr h)⟩
    · simp only [true_iff]
      exact ⟨h1, fun h => h2 (Or.inl h), fun h => h2 (Or.inr h)⟩
  · unfold parseSupportLevel
    split_ifs with h1 h2 h3
    · rcases h1 with rfl | rfl <;> decide
    · subst h2
      decide
    · simp only [true_iff]
      exact h3
    · simp only [reduceCtorEq, false_iff]
      exact h3

/-- C5: concrete interleaving of `loadFeatureData`.  Two `get("flexbox")`
calls whose cache checks both happen before either import resolves
(schedule `[0, 1, 0, 1]`) each start their own underlying import
(`loadCount = 2`), even though both resolve to the same value — the cache is
only written after the `await`, so the second call does not join the
in-flight load.  A call sequenced after completion (schedule `[0, 0, 1]`)
does hit the cache (`loadCount = 1`). -/
theorem loadFeatureData_duplicate_load :
    (runSchedule importSrcFlexbox catalogFlexbox [0, 1, 0, 1] (⟨[], 0⟩, procsFlexbox)).1.loadCount = 2
    ∧ (runSchedule importSrcFlexbox catalogFlexbox [0, 1, 0, 1] (⟨[], 0⟩, procsFlexbox)).2
        = [ProcState.finished "flexbox"
            (Option.some ⟨"flexbox", "Flexbox", Option.none, [("chrome", [("1", "y")])]⟩),
           ProcState.finished "flexbox"
            (Option.some ⟨"flexbox", "Flexbox", Option.none, [("chrome", [("1", "y")])]⟩)]
    ∧ (runSchedule importSrcFlexbox catalogFlexbox [0, 0, 1] (⟨[], 0⟩, procsFlexbox)).1.loadCount = 1 := by
  decide

/-- C4 counterexample: with a store on which every load fails (not-found),
`checkCompatibility` still returns an ordinary `CompatibilityResult` — the
degenerate all-empty one — rather than a not-found signal; its return type
(`Promise<CompatibilityResult>`) has no not-found case at all. -/
theorem checkCompatibility_missing_still_result :
    checkCompatibility (fun _ => Option.none) "css-grid" "flexbox"
      = ⟨SupportLevel.none, [], [], [], 0, 0⟩ := by
  norm_num [checkCompatibility, mkResult, getBrowserSupportData, supportingSet, overlapList,
    countLevel, pct, classifyResult]

/-- C4 amended: when the load of either id yields not-found,
`getBrowserSupportData` returns an empty list and `checkCompatibility`
still returns a `CompatibilityResult` (no exception is possible: the
function is total), with both percentages `0` and `compatible = 'none'`;
the engine never surfaces a not-found signal. -/
theorem checkCompatibility_missingData (store : String → Option FeatureData)
    (baseId targetId : String)
    (h : store baseId = Option.none ∨ store targetId = Option.none) :
    (checkCompatibility store baseId targetId).compatible = SupportLevel.none
    ∧ (checkCompatibility store baseId targetId).fullSupportPercentage = 0
    ∧ (checkCompatibility store baseId targetId).partialSupportPercentage = 0 := by
  rcases h with h | h
  · have hbase : getBrowserSupportData store baseId = [] := by
      simp [getBrowserSupportData, h]
    have hsupp : supportingSet (getBrowserSupportData store baseId) = [] := by
      rw [hbase]; rfl
    have hfull : (checkCompatibility store baseId targetId).fullSupportPercentage = 0 := by
      rw [checkCompatibility, mkResult_fullPct, hsupp]
      simp [overlapList, countLevel, pct]
    have hpart : (checkCompatibility store baseId targetId).partialSupportPercentage = 0 := by
      rw [checkCompatibility, mkResult_partialPct, hsupp]
      simp [overlapList, countLevel, pct]
    refine ⟨?_, hfull, hpart⟩
    have hc : (checkCompatibility store baseId targetId).compatible
        = classifyResult (checkCompatibility store baseId targetId).fullSupportPercentage
            (checkCompatibility store baseId targetId).partialSupportPercentage := rfl
    rw [hc, hfull, hpart]
    rw [classifyResult_none_iff]
    norm_num
  · have htgt : getBrowserSupportData store targetId = [] := by
      simp [getBrowserSupportData, h]
    have hover : ∀ e, overlapEntry [] e = synthNone e.browserId e.version := by
      intro e
      rfl
    have hzero : ∀ lvl, lvl ≠ SupportLevel.none →
        countLevel (overlapList [] (supportingSet (getBrowserSupportData store baseId))) lvl = 0 := by
      intro lvl hlvl
      unfold countLevel overlapList
      rw [List.filter_map]
      have : ∀ x, ((fun o => decide (o.supportLevel = lvl)) ∘ overlapEntry []) x = false := by
        intro x
        simp only [Function.comp_apply, hover]
        simpa [synthNone] using fun hh => hlvl hh.symm
      rw [List.filter_congr (fun x _ => this x)]
      simp
    have hfull : (checkCompatibility store baseId targetId).fullSupportPercentage = 0 := by
      rw [checkCompatibility, htgt, mkResult_fullPct, hzero SupportLevel.full (by simp)]
      simp [pct]
    have hpart : (checkCompatibility store baseId targetId).partialSupportPercentage = 0 := by
      rw [checkCompatibility, htgt, mkResult_partialPct, hzero SupportLevel.partly (by simp)]
      simp [pct]
    refine ⟨?_, hfull, hpart⟩
    have hc : (checkCompatibility store baseId targetId).compatible
        = classifyResult (checkCompatibility store baseId targetId).fullSupportPercentage
            (checkCompatibility store baseId targetId).partialSupportPercentage := rfl
    rw [hc, hfull, hpart]
    rw [classifyResult_none_iff]
    norm_num

/-- C4 witness. -/
theorem checkCompatibility_missingData_witness :
    (checkCompatibility (fun _ => Option.none) "css-grid" "flexbox").compatible = SupportLevel.none
    ∧ (checkCompatibility (fun _ => Option.none) "css-grid" "flexbox").fullSupportPercentage = 0
    ∧ (checkCompatibility (fun _ => Option.none) "css-grid" "flexbox").partialSupportPercentage = 0 :=
  checkCompatibility_missingData (fun _ => Option.none) "css-grid" "flexbox" (Or.inl rfl)

/-- C6: if the base feature loads but has zero entries classified `full`,
the supporting set is empty (`totalCount = 0`), both percentages are `0`
(the `totalCount > 0` guard avoids the division), and `compatible = 'none'`;
the function is total, so no exception can occur. -/
theorem checkCompatibility_zeroFull (store : String → Option FeatureData)
    (baseId targetId : String) (fb : FeatureData)
    (hb : store baseId = Option.some fb)
    (hz : (flattenStats fb.stats).filter (fun e => decide (e.supportLevel = SupportLevel.full)) = []) :
    (checkCompatibility store baseId targetId).baseFeatureBrowsers.length = 0
    ∧ (checkCompatibility store baseId targetId).fullSupportPercentage = 0
    ∧ (checkCompatibility store baseId targetId).partialSupportPercentage = 0
    ∧ (checkCompatibility store baseId targetId).compatible = SupportLevel.none := by
  have hbase : getBrowserSupportData store baseId = flattenStats fb.stats := by
    simp [getBrowserSupportData, hb]
  have hsupp : supportingSet (getBrowserSupportData store baseId) = [] := by
    rw [hbase]
    exact hz
  have hlen : (checkCompatibility store baseId targetId).baseFeatureBrowsers.length = 0 := by
    rw [checkCompatibility, mkResult_base, hsupp]
    rfl
  have hfull : (checkCompatibility store baseId targetId).fullSupportPercentage = 0 := by
    rw [checkCompatibility, mkResult_fullPct, hsupp]
    simp [overlapList, countLevel, pct]
  have hpart : (checkCompatibility store baseId targetId).partialSupportPercentage = 0 := by
    rw [checkCompatibility, mkResult_partialPct, hsupp]
    simp [overlapList, countLevel, pct]
  refine ⟨hlen, hfull, hpart, ?_⟩
  have hc : (checkCompatibility store baseId targetId).compatible
      = classifyResult (checkCompatibility store baseId targetId).fullSupportPercentage
          (checkCompatibility store baseId targetId).partialSupportPercentage := rfl
  rw [hc, hfull, hpart, classifyResult_none_iff]
  norm_num

/-- C6 witness. -/
theorem checkCompatibility_zeroFull_witness :
    (checkCompatibility storeNoFull "feat-a" "feat-a").baseFeatureBrowsers.length = 0
    ∧ (checkCompatibility storeNoFull "feat-a" "feat-a").fullSupportPercentage = 0
    ∧ (checkCompatibility storeNoFull "feat-a" "feat-a").partialSupportPercentage = 0
    ∧ (checkCompatibility storeNoFull "feat-a" "feat-a").compatible = SupportLevel.none :=
  checkCompatibility_zeroFull storeNoFull "feat-a" "feat-a" fdNoFull (by decide) (by decide)

/-- Every entry produced by `flattenStats` carries the classification of its
own raw code in its `supportLevel` field. -/
theorem flattenStats_supportLevel (stats : List (String × List (String × String))) :
    ∀ e ∈ flattenStats stats, e.supportLevel = classifySupport e.support := by
  intro e he
  simp only [flattenStats, List.mem_flatMap, List.mem_map] at he
  obtain ⟨bv, _, vs, _, rfl⟩ := he
  rfl

/-- C1: with both matrices loaded, the supporting set over which the
percentages are tallied (`baseFeatureBrowsers`, whose length is
`totalCount`) is exactly the list of flattened base-matrix entries whose
raw support code classifies as `full`, and a flattened base entry is in it
if and only if its code classifies as `full`. -/
theorem checkCompatibility_supportingSet (store : String → Option FeatureData)
    (baseId targetId : String) (fb ft : FeatureData)
    (hb : store baseId = Option.some fb) (_ht : store targetId = Option.some ft) :
    (checkCompatibility store baseId targetId).baseFeatureBrowsers
      = (flattenStats fb.stats).filter (fun e => decide (classifySupport e.support = SupportLevel.full))
    ∧ ∀ e ∈ flattenStats fb.stats,
        (e ∈ (checkCompatibility store baseId targetId).baseFeatureBrowsers
          ↔ classifySupport e.support = SupportLevel.full) := by
  have hbase : getBrowserSupportData store baseId = flattenStats fb.stats := by
    simp [getBrowserSupportData, hb]
  have hfilter : (checkCompatibility store baseId targetId).baseFeatureBrowsers
      = (flattenStats fb.stats).filter (fun e => decide (classifySupport e.support = SupportLevel.full)) := by
    rw [checkCompatibility, mkResult_base, hbase, supportingSet]
    exact List.filter_congr (fun e he => by rw [flattenStats_supportLevel fb.stats e he])
  refine ⟨hfilter, ?_⟩
  intro e he
  rw [hfilter]
  simp only [List.mem_filter, decide_eq_true_eq]
  exact ⟨fun hx => hx.2, fun hx => ⟨he, hx⟩⟩

/-- C1 witness. -/
theorem checkCompatibility_supportingSet_witness :
    (checkCompatibility storeMixed "feat-m" "feat-y").baseFeatureBrowsers
      = (flattenStats fdMixed.stats).filter (fun e => decide (classifySupport e.support = SupportLevel.full))
    ∧ ∀ e ∈ flattenStats fdMixed.stats,
        (e ∈ (checkCompatibility storeMixed "feat-m" "feat-y").baseFeatureBrowsers
          ↔ classifySupport e.support = SupportLevel.full) :=
  checkCompatibility_supportingSet storeMixed "feat-m" "feat-y" fdMixed fdYes (by decide) (by decide)

/-- C7 counterexample: `fdNoFull` loads successfully but has no `full`
entry, so `checkCompatibility("feat-a", "feat-a")` yields
`fullSupportPercentage = 0` and `compatible = 'none'`, not `100` / `'full'`
as the claim states for every successfully loading feature. -/
theorem checkCompatibility_selfPair_noFull :
    storeNoFull "feat-a" = Option.some fdNoFull
    ∧ (checkCompatibility storeNoFull "feat-a" "feat-a").fullSupportPercentage = 0
    ∧ (checkCompatibility storeNoFull "feat-a" "feat-a").compatible = SupportLevel.none
    ∧ (0 : ℚ) ≠ 100 ∧ SupportLevel.none ≠ SupportLevel.full := by
  have hsupp : supportingSet (getBrowserSupportData storeNoFull "feat-a") = [] := by decide
  have hfull : (checkCompatibility storeNoFull "feat-a" "feat-a").fullSupportPercentage = 0 := by
    rw [checkCompatibility, mkResult_fullPct, hsupp]
    simp [overlapList, countLevel, pct]
  have hpart : (checkCompatibility storeNoFull "feat-a" "feat-a").partialSupportPercentage = 0 := by
    rw [checkCompatibility, mkResult_partialPct, hsupp]
    simp [overlapList, countLevel, pct]
  refine ⟨by decide, hfull, ?_, by norm_num, by decide⟩
  have hc : (checkCompatibility storeNoFull "feat-a" "feat-a").compatible
      = classifyResult (checkCompatibility storeNoFull "feat-a" "feat-a").fullSupportPercentage
          (checkCompatibility storeNoFull "feat-a" "feat-a").partialSupportPercentage := rfl
  rw [hc, hfull, hpart, classifyResult_none_iff]
  norm_num

/-- Core of the self-comparison property at the list level: when the
flattened entries have pairwise-distinct `browserId-version` keys, every
supporting entry finds itself in the target map, so with a nonempty
supporting set the full percentage is exactly 100. -/
theorem mkResult_self_full (L : List BrowserSupport)
    (hkeys : L.Pairwise
      (fun e1 e2 => entryKey e1.browserId e1.version ≠ entryKey e2.browserId e2.version))
    (hne : supportingSet L ≠ []) :
    (mkResult L L).fullSupportPercentage = 100
    ∧ (mkResult L L).compatible = SupportLevel.full := by
  have hid : ∀ e ∈ supportingSet L, overlapEntry L e = id e := by
    intro e heS
    have heL : e ∈ L := List.mem_of_mem_filter heS
    unfold overlapEntry targetLookup
    have hsome : (L.reverse.find?
        (fun t => decide (entryKey t.browserId t.version = entryKey e.browserId e.version))).isSome := by
      rw [List.find?_isSome]
      exact ⟨e, List.mem_reverse.mpr heL, by simp⟩
    obtain ⟨t, hts⟩ := Option.isSome_iff_exists.mp hsome
    have htp := List.find?_some hts
    have htm : t ∈ L := List.mem_reverse.mp (List.mem_of_find?_eq_some hts)
    have hkey : entryKey t.browserId t.version = entryKey e.browserId e.version := by
      simpa using htp
    have hsymm : Symmetric
        (fun e1 e2 : BrowserSupport =>
          entryKey e1.browserId e1.version ≠ entryKey e2.browserId e2.version) := by
      intro x y hxy hyx
      exact hxy hyx.symm
    have hte : t = e := by
      by_contra hne2
      exact (hkeys.forall hsymm htm heL hne2) hkey
    rw [hts, hte]
    rfl
  have hover : overlapList L (supportingSet L) = supportingSet L := by
    unfold overlapList
    rw [List.map_congr_left hid, List.map_id]
  have hfilter : (supportingSet L).filter
      (fun o => decide (o.supportLevel = SupportLevel.full)) = supportingSet L := by
    rw [List.filter_eq_self]
    intro e he
    unfold supportingSet at he
    exact (List.mem_filter.mp he).2
  have hcount : countLevel (overlapList L (supportingSet L)) SupportLevel.full
      = (supportingSet L).length := by
    rw [hover]
    unfold countLevel
    rw [hfilter]
  have hlen : 0 < (supportingSet L).length := List.length_pos.mpr hne
  have hcast : ((supportingSet L).length : ℚ) ≠ 0 :=
    Nat.cast_ne_zero.mpr (Nat.pos_iff_ne_zero.mp hlen)
  have hfull : (mkResult L L).fullSupportPercentage = 100 := by
    rw [mkResult_fullPct, hcount]
    unfold pct
    rw [if_pos hlen, div_self hcast]
    norm_num
  refine ⟨hfull, ?_⟩
  rw [mkResult_compatible, hfull, classifyResult_full_iff]

/-- C7 amended: for every feature id `A` whose data loads successfully,
provided the flattened matrix entries have pairwise-distinct
`browserId-version` key strings (true of the real dataset, where browser
ids contain no hyphen) and at least one entry is classified `full`,
`checkCompatibility(A, A)` yields `fullSupportPercentage = 100` and
`compatible = 'full'`; with zero `full` entries it instead yields `0` and
`'none'`. -/
theorem checkCompatibility_selfPair (store : String → Option FeatureData)
    (a : String) (fb : FeatureData) (hb : store a = Option.some fb)
    (hkeys : (flattenStats fb.stats).Pairwise
      (fun e1 e2 => entryKey e1.browserId e1.version ≠ entryKey e2.browserId e2.version))
    (hne : supportingSet (flattenStats fb.stats) ≠ []) :
    (checkCompatibility store a a).fullSupportPercentage = 100
    ∧ (checkCompatibility store a a).compatible = SupportLevel.full := by
  have hbase : getBrowserSupportData store a = flattenStats fb.stats := by
    simp [getBrowserSupportData, hb]
  rw [checkCompatibility, hbase]
  exact mkResult_self_full (flattenStats fb.stats) hkeys hne

/-- C7 witness. -/
theorem checkCompatibility_selfPair_witness :
    (checkCompatibility storeMixed "feat-y" "feat-y").fullSupportPercentage = 100
    ∧ (checkCompatibility storeMixed "feat-y" "feat-y").compatible = SupportLevel.full :=
  checkCompatibility_selfPair storeMixed "feat-y" fdYes (by decide) (by decide) (by decide)

/-- C8 counterexample: for an id absent from the catalog (and the cache),
`getFeatureTitle` returns `null` — not the id itself as the claim states;
the fallback to the id happens in the callers. -/
theorem getFeatureTitle_unknown_null :
    getFeatureTitle [] [] "css-grid" = Option.none
    ∧ Option.none ≠ Option.some "css-grid" := by
  constructor
  · rfl
  · exact fun h => Option.noConfusion h

/-- C8 amended: `getFeatureTitle` is total and returns the catalog entry's
title when the id is found there (and the title is truthy, i.e. nonempty),
else the cached feature data's title under the same condition, else `null`;
for an id absent from both it returns `null`, never the id itself. -/
theorem getFeatureTitle_spec (featuresData : List CatFeature)
    (cache : List (String × FeatureData)) (featureId : String) :
    (∀ f, featuresData.find? (fun g => decide (g.id = featureId)) = Option.some f →
      f.title ≠ "" → getFeatureTitle featuresData cache featureId = Option.some f.title)
    ∧ (featuresData.find? (fun g => decide (g.id = featureId)) = Option.none →
      cacheLookup cache featureId = Option.none →
      getFeatureTitle featuresData cache featureId = Option.none) := by
  constructor
  · intro f hf hne
    unfold getFeatureTitle
    rw [hf]
    show firstTruthy (Option.some f.title)
      (firstTruthy ((cacheLookup cache featureId).map (fun f => f.title)) Option.none)
      = Option.some f.title
    simp only [firstTruthy]
    rw [if_neg hne]
  · intro hf hc
    unfold getFeatureTitle
    rw [hf, hc]
    rfl

/-- C8 witness. -/
theorem getFeatureTitle_spec_witness :
    getFeatureTitle catalogGrid [] "css-grid" = Option.some "Grid"
    ∧ getFeatureTitle catalogGrid [] "flexbox" = Option.none := by
  constructor
  · have h := (getFeatureTitle_spec catalogGrid [] "css-grid").1
      ⟨"css-grid", "Grid", Option.none⟩ (by decide) (by decide)
    exact h
  · exact (getFeatureTitle_spec catalogGrid [] "flexbox").2 (by decide) (by decide)

/-- `find?` only inspects the predicate on list members. -/
theorem find?_congr_mem {α : Type} {p q : α → Bool} :
    ∀ (l : List α), (∀ x ∈ l, p x = q x) → l.find? p = l.find? q := by
  intro l
  induction l with
  | nil => intro _; rfl
  | cons hd tl ih =>
    intro h
    have hhd := h hd (List.mem_cons_self hd tl)
    simp only [List.find?]
    rw [← hhd]
    cases hp : p hd
    · exact ih (fun x hx => h x (List.mem_cons_of_mem hd hx))
    · rfl

/-- C9: blank (after trim) queries return the entire catalog unchanged;
non-blank queries return at most 50 items, ranked best (lowest fuse score)
first; a query matching nothing returns the empty list. -/
theorem searchFeatures_spec (scorer : CatFeature → String → Option ℚ)
    (featuresData : List CatFeature) (query : String) :
    (trimString query = "" → searchFeatures scorer featuresData query = featuresData)
    ∧ (trimString query ≠ "" → (searchFeatures scorer featuresData query).length ≤ 50)
    ∧ (trimString query ≠ "" → List.Sorted (fun a b : FuseResult => a.score ≤ b.score)
        (fuseSearch scorer featuresData query 50))
    ∧ (trimString query ≠ "" → (∀ f ∈ featuresData, scorer f query = Option.none) →
        searchFeatures scorer featuresData query = []) := by
  refine ⟨?_, ?_, ?_, ?_⟩
  · intro h
    unfold searchFeatures
    rw [if_pos h]
  · intro h
    unfold searchFeatures
    rw [if_neg h, List.length_map]
    unfold fuseSearch
    rw [List.length_take]
    exact Nat.min_le_left _ _
  · intro h
    unfold fuseSearch
    have hs : List.Pairwise (fun a b : FuseResult => decide (a.score ≤ b.score) = true)
        ((featuresData.filterMap
          (fun f => (scorer f query).map (fun s => FuseResult.mk f s))).mergeSort
            (fun a b => decide (a.score ≤ b.score))) :=
      @List.sorted_mergeSort FuseResult (fun a b => decide (a.score ≤ b.score))
        (fun a b c : FuseResult => fun hab hbc =>
          decide_eq_true (le_trans (of_decide_eq_true hab) (of_decide_eq_true hbc)))
        (fun a b : FuseResult =>
          Or.elim (le_total a.score b.score)
            (fun hl => Bool.or_eq_true_iff.mpr (Or.inl (decide_eq_true hl)))
            (fun hr => Bool.or_eq_true_iff.mpr (Or.inr (decide_eq_true hr))))
        (featuresData.filterMap (fun f => (scorer f query).map (fun s => FuseResult.mk f s)))
    have hsorted := hs.imp
      (fun hab => of_decide_eq_true hab)
    exact hsorted.sublist (List.take_sublist _ _)
  · intro h hnone
    unfold searchFeatures
    rw [if_neg h]
    show (fuseSearch scorer featuresData query 50).map (fun r => r.item) = []
    unfold fuseSearch
    have hnil : featuresData.filterMap
        (fun f => (scorer f query).map (fun s => FuseResult.mk f s)) = [] := by
      rw [List.filterMap_eq_nil_iff]
      intro f hf
      rw [hnone f hf]
      rfl
    rw [hnil, List.mergeSort_nil]
    rfl

/-- C9 witness. -/
theorem searchFeatures_spec_witness :
    searchFeatures scorerNone catalogSearch " " = catalogSearch
    ∧ searchFeatures scorerNone catalogSearch "xyz-nonexistent" = [] := by
  constructor
  · exact (searchFeatures_spec scorerNone catalogSearch " ").1 (by decide)
  · exact (searchFeatures_spec scorerNone catalogSearch "xyz-nonexistent").2.2.2 (by decide)
      (fun f _ => rfl)

/-- Every overlap entry has exactly one of the three levels, so the three
loop counters partition the loop iterations. -/
theorem countLevel_partition (l : List BrowserSupport) :
    countLevel l SupportLevel.full + countLevel l SupportLevel.partly
      + countLevel l SupportLevel.none = l.length := by
  induction l with
  | nil => rfl
  | cons hd tl ih =>
    unfold countLevel at ih ⊢
    rcases h : hd.supportLevel <;> simp [List.filter_cons, h] <;> omega

/-- Under cross-key injectivity, looking up the string key of `e` in the
target map is the same as looking up its (browserId, version) pair. -/
theorem targetLookup_eq_pairLookup (targetData : List BrowserSupport) (e : BrowserSupport)
    (hinj : ∀ u ∈ targetData,
      entryKey u.browserId u.version = entryKey e.browserId e.version →
      u.browserId = e.browserId ∧ u.version = e.version) :
    targetLookup targetData (entryKey e.browserId e.version)
      = pairLookup targetData e.browserId e.version := by
  unfold targetLookup pairLookup
  apply find?_congr_mem
  intro u hu
  have hu2 : u ∈ targetData := List.mem_reverse.mp hu
  apply decide_eq_decide.mpr
  constructor
  · exact hinj u hu2
  · rintro ⟨h1, h2⟩
    rw [entryKey, entryKey, h1, h2]

/-- C10 amended: `overlappingSupport` has exactly one entry per
supporting-set entry, in the same order; provided no target entry's
`browserId-version` key string collides with a supporting entry's key
while denoting a different (browserId, version) pair (true of the real
dataset, where browser ids contain no hyphen), each entry is the target
matrix's entry for that pair, or the synthetic `'n'`/none entry when the
pair is absent; and the full/partial/none counts always sum to
`totalCount`. -/
theorem checkCompatibility_overlapShape (store : String → Option FeatureData)
    (baseId targetId : String)
    (hinj : ∀ e ∈ (checkCompatibility store baseId targetId).baseFeatureBrowsers,
      ∀ u ∈ (checkCompatibility store baseId targetId).targetFeatureSupport,
      entryKey u.browserId u.version = entryKey e.browserId e.version →
      u.browserId = e.browserId ∧ u.version = e.version) :
    (checkCompatibility store baseId targetId).overlappingSupport
      = (checkCompatibility store baseId targetId).baseFeatureBrowsers.map (fun e =>
          match pairLookup (checkCompatibility store baseId targetId).targetFeatureSupport
              e.browserId e.version with
          | Option.some u => u
          | Option.none => synthNone e.browserId e.version)
    ∧ countLevel (checkCompatibility store baseId targetId).overlappingSupport SupportLevel.full
      + countLevel (checkCompatibility store baseId targetId).overlappingSupport SupportLevel.partly
      + countLevel (checkCompatibility store baseId targetId).overlappingSupport SupportLevel.none
      = (checkCompatibility store baseId targetId).baseFeatureBrowsers.length := by
  constructor
  · show overlapList (getBrowserSupportData store targetId)
        (supportingSet (getBrowserSupportData store baseId)) = _
    unfold overlapList
    apply List.map_congr_left
    intro e he
    unfold overlapEntry
    rw [targetLookup_eq_pairLookup (getBrowserSupportData store targetId) e
      (fun u hu hk => hinj e he u hu hk)]
    rfl
  · rw [countLevel_partition]
    show (overlapList (getBrowserSupportData store targetId)
        (supportingSet (getBrowserSupportData store baseId))).length = _
    unfold overlapList
    rw [List.length_map]
    rfl

/-- C10 witness. -/
theorem checkCompatibility_overlapShape_witness :
    (checkCompatibility storeMixed "feat-m" "feat-y").overlappingSupport
      = (checkCompatibility storeMixed "feat-m" "feat-y").baseFeatureBrowsers.map (fun e =>
          match pairLookup (checkCompatibility storeMixed "feat-m" "feat-y").targetFeatureSupport
              e.browserId e.version with
          | Option.some u => u
          | Option.none => synthNone e.browserId e.version)
    ∧ countLevel (checkCompatibility storeMixed "feat-m" "feat-y").overlappingSupport SupportLevel.full
      + countLevel (checkCompatibility storeMixed "feat-m" "feat-y").overlappingSupport SupportLevel.partly
      + countLevel (checkCompatibility storeMixed "feat-m" "feat-y").overlappingSupport SupportLevel.none
      = (checkCompatibility storeMixed "feat-m" "feat-y").baseFeatureBrowsers.length :=
  checkCompatibility_overlapShape storeMixed "feat-m" "feat-y" (by decide)

/-- C10 counterexample: base entry (browser `"a"`, version `"b-1"`) and
target entry (browser `"a-b"`, version `"1"`) share the key string
`"a-b-1"`.  The pair `("a", "b-1")` is absent from the target matrix
(`pairLookup` is `none`), so per the claim the overlap entry should be the
synthetic `'n'`/none entry — but the code records the colliding target
entry instead. -/
theorem checkCompatibility_overlap_collision :
    (checkCompatibility storeColl "feat-a" "feat-b").baseFeatureBrowsers
      = [⟨"a", "b-1", "y", SupportLevel.full⟩]
    ∧ (checkCompatibility storeColl "feat-a" "feat-b").targetFeatureSupport
      = [⟨"a-b", "1", "y", SupportLevel.full⟩]
    ∧ pairLookup [⟨"a-b", "1", "y", SupportLevel.full⟩] "a" "b-1" = Option.none
    ∧ (checkCompatibility storeColl "feat-a" "feat-b").overlappingSupport
      = [⟨"a-b", "1", "y", SupportLevel.full⟩]
    ∧ (⟨"a-b", "1", "y", SupportLevel.full⟩ : BrowserSupport) ≠ synthNone "a" "b-1" := by
  decide
